import Mathlib

/-!
# k8s-watcher: multi-cluster pod phase watcher, shallow embedding

This file embeds the event-handling core of `src/watcher/multi_cluster_pod_phase_watcher.py`
(the watcher class instantiated by `src/main.py`) together with the pieces of
`src/watcher/clusterapi_client.py` and `src/watcher/pod_phase_watcher.py` that the
verified properties touch, and proves properties of the embedded code.

Modelling conventions:
* Python `None`-or-string values (e.g. `pod.status.phase`) are `Option String`;
  Python's string `"None"` is `some "None"` and is distinct from `none`.
* The mutable dict `self.pod_phase_history` is an association list threaded through
  the handler explicitly; insertion order is preserved and updates replace in place,
  matching Python dict semantics.
* `datetime.now().isoformat()` is an explicit `now : String` parameter.
* The Notification Sink (`ClusterApiClient.pod_event` / `pvc_event`) is an explicit
  function argument `sink : payload → Bool` (`True` = HTTP 200, `False` = non-2xx or
  transport error; the client never raises to the caller).
* Handlers additionally return the list of sink invocations (`notifications`) and the
  list of history writes (`writes`) they performed, in order, so that "no notification"
  and "exactly one history write" are directly statable.
-/

/-- One value of `self.pod_phase_history[key]`: the dict
`{"phase": phase, "timestamp": datetime.now().isoformat()}` written by
`_update_phase_history`. `phase` is `Option String` because `pod.status.phase`
can be Python `None`. -/
structure PhaseRecord where
  phase : Option String
  timestamp : String
deriving DecidableEq, Repr

/-- Lookup in the phase-history dict (`self.pod_phase_history.get(key)` /
`key in self.pod_phase_history`). -/
def histGet : List (String × PhaseRecord) → String → Option PhaseRecord
  | [], _ => none
  | (k, r) :: t, key => if k = key then some r else histGet t key

/-- Assignment `self.pod_phase_history[key] = record`: replace in place if the key
is present, else append (Python dicts preserve insertion order). -/
def histSet : List (String × PhaseRecord) → String → PhaseRecord → List (String × PhaseRecord)
  | [], key, r => [(key, r)]
  | (k, r0) :: t, key, r => if k = key then (key, r) :: t else (k, r0) :: histSet t key r

/-- `V1ContainerState`, as used by `_get_container_state`: each of `running`,
`waiting`, `terminated` is a sub-object or Python `None`; only the truthiness of
`running` and the `reason` fields of the other two are read. -/
structure ContainerState where
  running : Bool
  waiting : Option (Option String)
  terminated : Option (Option String)
deriving DecidableEq, Repr

/-- One entry of `pod.status.container_statuses` (`V1ContainerStatus`), restricted
to the fields the watcher reads. -/
structure ContainerStatus where
  name : String
  ready : Option Bool
  restart_count : Int
  state : Option ContainerState
deriving DecidableEq, Repr

/-- `pod.status` (`V1PodStatus`), restricted to the fields the watcher reads.
`phase` may be Python `None`; `conditions` and `container_statuses` may each be
Python `None` or a list. -/
structure PodStatus where
  phase : Option String
  conditions : Option (List String)
  container_statuses : Option (List ContainerStatus)
deriving DecidableEq, Repr

/-- `pod.metadata` (`V1ObjectMeta`), restricted to the fields the watcher reads.
The source field `namespace` is spelled `nspace` (`namespace` is a Lean keyword). -/
structure PodMeta where
  name : String
  nspace : String
  uid : String
  creation_timestamp : Option String
deriving DecidableEq, Repr

/-- `pod.spec` (`V1PodSpec`), restricted to the one field the watcher reads. -/
structure PodSpec where
  node_name : Option String
deriving DecidableEq, Repr

/-- A pod snapshot as received from the watch stream. `spec` and `status` may be
Python `None`. -/
structure Pod where
  metadata : PodMeta
  spec : Option PodSpec
  status : Option PodStatus
deriving DecidableEq, Repr

/-- `pod.status.phase if pod.status else "Unknown"` (lines 327 and 392 of
`multi_cluster_pod_phase_watcher.py` compute exactly this expression). When the
status object exists but its `phase` field is Python `None`, the result is `none`,
not `"Unknown"`. -/
def currentPhase (pod : Pod) : Option String :=
  match pod.status with
  | none => some "Unknown"
  | some st => st.phase

/-- `_get_container_state`: priority `running > waiting > terminated > Unknown`;
a `None` reason is interpolated by the f-string as the text `None`. -/
def get_container_state (state : ContainerState) : String :=
  if state.running then "Running"
  else
    match state.waiting with
    | some reason => "Waiting (" ++ reason.getD "None" ++ ")"
    | none =>
      match state.terminated with
      | some reason => "Terminated (" ++ reason.getD "None" ++ ")"
      | none => "Unknown"

/-- The `pod_key = f"{cluster_name}:{pod_uid}"` of
`handle_pod_phase_event` / `_extract_pod_phase_data`. -/
def podKey (cluster_name : String) (pod_uid : String) : String :=
  cluster_name ++ ":" ++ pod_uid

/-- `_should_notify_phase_change(pod_uid, current_phase)`: notify when the key has
never been seen, or when the recorded phase differs from the current one. -/
def should_notify_phase_change (hist : List (String × PhaseRecord))
    (pod_key : String) (current_phase : Option String) : Bool :=
  match histGet hist pod_key with
  | none => true
  | some r => if r.phase = current_phase then false else true

/-- The `"instance"` part of the payload built by `_extract_pod_phase_data`
(the second definition, line 390, which shadows the first). -/
structure InstanceInfo where
  pod_name : String
  nspace : String
  uid : String
  node_name : Option String
  creation_timestamp : Option String
  cluster_name : String
deriving DecidableEq, Repr

/-- The `"phase"` part of the payload. In the effective (second) definition of
`_extract_pod_phase_data` the `conditions` list is created empty and never filled. -/
structure PhaseInfo where
  current_phase : Option String
  previous_phase : Option String
  phase_change_timestamp : String
  cluster_name : String
  conditions : List String
deriving DecidableEq, Repr

/-- One element of the `"containers"` part of the payload. -/
structure ContainerInfo where
  name : String
  ready : Option Bool
  restart_count : Int
  state : String
deriving DecidableEq, Repr

/-- The notification payload handed to `ClusterApiClient.pod_event`. The source
dict key `instance` is spelled `instance_info` (`instance` is a Lean keyword). -/
structure PodPhasePayload where
  instance_info : InstanceInfo
  phase : PhaseInfo
  containers : List ContainerInfo
  environment : String
  cluster_name : String
  event_timestamp : String
deriving DecidableEq, Repr

/-- `_extract_pod_phase_data(self, pod, cluster_name)` (line 390, the definition in
effect). Reads the history through `.get(pod_key, {}).get("phase")`, whose result is
Python `None` both when the key is absent and when the recorded phase is `None`. -/
def extract_pod_phase_data (environment : String) (hist : List (String × PhaseRecord))
    (pod : Pod) (cluster_name : String) (now : String) : PodPhasePayload :=
  let current_phase := currentPhase pod
  let instance_info : InstanceInfo :=
    { pod_name := pod.metadata.name
      nspace := pod.metadata.nspace
      uid := pod.metadata.uid
      node_name := match pod.spec with | none => none | some sp => sp.node_name
      creation_timestamp := pod.metadata.creation_timestamp
      cluster_name := cluster_name }
  let pod_key := podKey cluster_name pod.metadata.uid
  let phase_info : PhaseInfo :=
    { current_phase := current_phase
      previous_phase := match histGet hist pod_key with | none => none | some r => r.phase
      phase_change_timestamp := now
      cluster_name := cluster_name
      conditions := [] }
  let container_info : List ContainerInfo :=
    match pod.status with
    | none => []
    | some st =>
      match st.container_statuses with
      | none => []
      | some css =>
        css.map fun cs =>
          { name := cs.name
            ready := cs.ready
            restart_count := cs.restart_count
            state := match cs.state with
              | none => "Unknown"
              | some s => get_container_state s }
  { instance_info := instance_info
    phase := phase_info
    containers := container_info
    environment := environment
    cluster_name := cluster_name
    event_timestamp := now }

/-- Result of one `handle_pod_phase_event` call: the phase-history dict afterwards,
the payloads passed to `ClusterApiClient.pod_event` (in order), and the history
writes performed by `_update_phase_history` (in order). -/
structure HandleResult where
  history : List (String × PhaseRecord)
  notifications : List PodPhasePayload
  writes : List (String × PhaseRecord)
deriving DecidableEq, Repr

/-- `handle_pod_phase_event(self, event_type, pod, cluster_name)` (line 322).
`event_type` is only logged by the source, never branched on. The
`previous_phase` guard reads `.get(pod_key, {}).get("phase", "None")`: the string
`"None"` stands in for "no record", so a recorded phase equal to the literal
string `"None"` is routed to the initial-observation branch. On a transition the
sink is called once; the history is written only on sink success
(`_update_phase_history`). -/
def handle_pod_phase_event (environment : String) (sink : PodPhasePayload → Bool)
    (hist : List (String × PhaseRecord)) (event_type : String) (pod : Pod)
    (cluster_name : String) (now : String) : HandleResult :=
  let _ := event_type
  let current_phase := currentPhase pod
  let pod_key := podKey cluster_name pod.metadata.uid
  if should_notify_phase_change hist pod_key current_phase then
    let previous_phase : Option String :=
      match histGet hist pod_key with
      | none => some "None"
      | some r => r.phase
    if previous_phase ≠ some "None" then
      let phase_data := extract_pod_phase_data environment hist pod cluster_name now
      -- `phase_data['cluster_name'] = cluster_name` re-assigns a field the
      -- extractor already set to the same value.
      let success := sink phase_data
      if success then
        let r : PhaseRecord := { phase := current_phase, timestamp := now }
        { history := histSet hist pod_key r
          notifications := [phase_data]
          writes := [(pod_key, r)] }
      else
        { history := hist, notifications := [phase_data], writes := [] }
    else
      let r : PhaseRecord := { phase := current_phase, timestamp := now }
      { history := histSet hist pod_key r
        notifications := []
        writes := [(pod_key, r)] }
  else
    { history := hist, notifications := [], writes := [] }

/-- Sequential processing of a stream of pod events `(event_type, pod)` for one
cluster, as done by the `watch_pods` loop inside `_watch_cluster`: each event is
handled against the history left by the previous one. -/
def run_pod_events (environment : String) (sink : PodPhasePayload → Bool)
    (now : String) (cluster_name : String) :
    List (String × PhaseRecord) → List (String × Pod) → HandleResult
  | hist, [] => { history := hist, notifications := [], writes := [] }
  | hist, (et, pod) :: rest =>
    let r := handle_pod_phase_event environment sink hist et pod cluster_name now
    let r2 := run_pod_events environment sink now cluster_name r.history rest
    { history := r2.history
      notifications := r.notifications ++ r2.notifications
      writes := r.writes ++ r2.writes }

/-- `pvc.metadata` restricted to the fields `handle_pvc_event` reads. -/
structure PvcMeta where
  name : String
  nspace : String
  uid : String
  creation_timestamp : Option String
deriving DecidableEq, Repr

/-- A PVC snapshot as received from the watch stream. `pvc.status.to_dict()` is
modelled as an opaque key/value list; `status` itself may be Python `None`. -/
structure Pvc where
  metadata : PvcMeta
  status : Option (List (String × String))
deriving DecidableEq, Repr

/-- The payload `pvc_data` handed to `ClusterApiClient.pvc_event`:
`pvc.status.to_dict() if pvc.status else {}` and the metadata sub-dict. -/
structure PvcPayload where
  meta_name : String
  meta_nspace : String
  meta_uid : String
  meta_creation_timestamp : Option String
  status : List (String × String)
  event_type : String
  cluster_name : String
  environment : String
  event_timestamp : String
deriving DecidableEq, Repr

/-- The translation of a PVC snapshot into `pvc_data`, inlined at the top of
`handle_pvc_event` (lines 365-377). -/
def extract_pvc_data (environment : String) (event_type : String) (pvc : Pvc)
    (cluster_name : String) (now : String) : PvcPayload :=
  { meta_name := pvc.metadata.name
    meta_nspace := pvc.metadata.nspace
    meta_uid := pvc.metadata.uid
    meta_creation_timestamp := pvc.metadata.creation_timestamp
    status := match pvc.status with | none => [] | some d => d
    event_type := event_type
    cluster_name := cluster_name
    environment := environment
    event_timestamp := now }

/-- Result of one `handle_pvc_event` call: the payloads passed to
`ClusterApiClient.pvc_event` (in order) and the Python return value (`Some b`
only on the `DELETED` branch, `none` where the source falls off the end). -/
structure PvcHandleResult where
  sink_calls : List PvcPayload
  returned : Option Bool
deriving DecidableEq, Repr

/-- `handle_pvc_event(self, event_type, pvc, cluster_name)` (line 360). Builds
`pvc_data` unconditionally, then: `DELETED` → notify the sink and return its
boolean; `ADDED`/`MODIFIED` → log only; anything else → warn only. No phase
history is consulted or written. -/
def handle_pvc_event (environment : String) (sink_pvc : PvcPayload → Bool)
    (event_type : String) (pvc : Pvc) (cluster_name : String) (now : String) :
    PvcHandleResult :=
  let pvc_data := extract_pvc_data environment event_type pvc cluster_name now
  if event_type = "DELETED" then
    { sink_calls := [pvc_data], returned := some (sink_pvc pvc_data) }
  else if event_type = "ADDED" ∨ event_type = "MODIFIED" then
    { sink_calls := [], returned := none }
  else
    { sink_calls := [], returned := none }

/-- How the watch stream of one resource kind ends: normal exhaustion of the
generator, or an exception raised mid-watch (network error, server-side close,
watch timeout). -/
inductive StreamEnd where
  | exhausted
  | failed
deriving DecidableEq, Repr

/-- Final state of a per-cluster session thread. The source has no
`Reconnecting` behaviour; the constructor exists so that the spec's claimed state
is expressible. -/
inductive SessionFinal where
  | terminated
  | reconnecting
deriving DecidableEq, Repr

/-- Observable outcome of `_watch_cluster` for one cluster: the pod-phase history
and notifications produced, how many times a pod watch stream was opened, how
many backoff sleeps were performed before re-opening, and the final state. -/
structure SessionResult where
  history : List (String × PhaseRecord)
  pod_notifications : List PodPhasePayload
  pod_stream_opens : Nat
  backoff_sleeps : Nat
  final : SessionFinal
deriving DecidableEq, Repr

/-- `_watch_cluster(self, cluster_config)` (lines 258-297), pod side. The source
opens the pod stream once (`watch_instance.stream(...)`), iterates it in the
`watch_pods` thread handing each event to `handle_pod_phase_event`, and when the
stream ends — whether by exhaustion or by an exception — the loop exits, the
`except` block (if the exception reaches `_watch_cluster`) only logs, and the
`finally` block stops the watch instance. There is no loop around the stream, no
`time.sleep` backoff and no second call to `stream`, so the result does not
depend on how the stream ended: `pod_events` are the events delivered before the
end, and afterwards the session thread terminates. -/
def watch_cluster (environment : String) (sink : PodPhasePayload → Bool)
    (now cluster_name : String) (hist : List (String × PhaseRecord))
    (pod_events : List (String × Pod)) (ending : StreamEnd) : SessionResult :=
  let _ := ending
  let r := run_pod_events environment sink now cluster_name hist pod_events
  { history := r.history
    pod_notifications := r.notifications
    pod_stream_opens := 1
    backoff_sleeps := 0
    final := SessionFinal.terminated }

/-! ## Helper lemmas about the history store and the handler branches -/

theorem histGet_histSet_self (h : List (String × PhaseRecord)) (k : String) (r : PhaseRecord) :
    histGet (histSet h k r) k = some r := by
  induction h with
  | nil => simp [histSet, histGet]
  | cons p t ih =>
    obtain ⟨k0, r0⟩ := p
    by_cases hk : k0 = k
    · simp [histSet, hk, histGet]
    · simp [histSet, hk, histGet, ih]

/-- Suppression branch: a recorded phase equal to the event's phase makes
`handle_pod_phase_event` a no-op. -/
theorem handle_suppress (environment : String) (sink : PodPhasePayload → Bool)
    (hist : List (String × PhaseRecord)) (et : String) (pod : Pod) (c now : String)
    (r : PhaseRecord) (hget : histGet hist (podKey c pod.metadata.uid) = some r)
    (hph : r.phase = currentPhase pod) :
    handle_pod_phase_event environment sink hist et pod c now =
      { history := hist, notifications := [], writes := [] } := by
  simp [handle_pod_phase_event, should_notify_phase_change, hget, hph]

/-- Initial-observation branch: no record for the key means one silent history
write. -/
theorem handle_first_observation (environment : String) (sink : PodPhasePayload → Bool)
    (hist : List (String × PhaseRecord)) (et : String) (pod : Pod) (c now : String)
    (hget : histGet hist (podKey c pod.metadata.uid) = none) :
    handle_pod_phase_event environment sink hist et pod c now =
      { history := histSet hist (podKey c pod.metadata.uid)
          { phase := currentPhase pod, timestamp := now }
        notifications := []
        writes := [(podKey c pod.metadata.uid, { phase := currentPhase pod, timestamp := now })] } := by
  simp [handle_pod_phase_event, should_notify_phase_change, hget]

/-- Sentinel conflation: a recorded phase equal to the literal string `"None"` is
routed to the initial-observation branch whenever the event's phase differs. -/
theorem handle_none_record (environment : String) (sink : PodPhasePayload → Bool)
    (hist : List (String × PhaseRecord)) (et : String) (pod : Pod) (c now : String)
    (r : PhaseRecord) (hget : histGet hist (podKey c pod.metadata.uid) = some r)
    (hN : r.phase = some "None") (hne : currentPhase pod ≠ some "None") :
    handle_pod_phase_event environment sink hist et pod c now =
      { history := histSet hist (podKey c pod.metadata.uid)
          { phase := currentPhase pod, timestamp := now }
        notifications := []
        writes := [(podKey c pod.metadata.uid, { phase := currentPhase pod, timestamp := now })] } := by
  have hne' : ¬ ((some "None" : Option String) = currentPhase pod) := fun h => hne h.symm
  simp [handle_pod_phase_event, should_notify_phase_change, hget, hN, hne']

/-- Transition branch with a successful sink call: one notification, then the
record is committed. -/
theorem handle_transition_success (environment : String) (sink : PodPhasePayload → Bool)
    (hist : List (String × PhaseRecord)) (et : String) (pod : Pod) (c now : String)
    (r : PhaseRecord) (hget : histGet hist (podKey c pod.metadata.uid) = some r)
    (hne : r.phase ≠ currentPhase pod) (hN : r.phase ≠ some "None")
    (hs : sink (extract_pod_phase_data environment hist pod c now) = true) :
    handle_pod_phase_event environment sink hist et pod c now =
      { history := histSet hist (podKey c pod.metadata.uid)
          { phase := currentPhase pod, timestamp := now }
        notifications := [extract_pod_phase_data environment hist pod c now]
        writes := [(podKey c pod.metadata.uid, { phase := currentPhase pod, timestamp := now })] } := by
  simp [handle_pod_phase_event, should_notify_phase_change, hget, hne, hN, hs]

/-- Transition branch with a failing sink call: one notification attempt and no
history write at all. -/
theorem handle_transition_failure (environment : String) (sink : PodPhasePayload → Bool)
    (hist : List (String × PhaseRecord)) (et : String) (pod : Pod) (c now : String)
    (r : PhaseRecord) (hget : histGet hist (podKey c pod.metadata.uid) = some r)
    (hne : r.phase ≠ currentPhase pod) (hN : r.phase ≠ some "None")
    (hs : sink (extract_pod_phase_data environment hist pod c now) = false) :
    handle_pod_phase_event environment sink hist et pod c now =
      { history := hist
        notifications := [extract_pod_phase_data environment hist pod c now]
        writes := [] } := by
  simp [handle_pod_phase_event, should_notify_phase_change, hget, hne, hN, hs]

/-- Once the history records the common phase of a run of events for one UID,
the whole run is suppressed. -/
theorem run_suppressed (environment : String) (sink : PodPhasePayload → Bool)
    (now c u : String) (p : Option String) (r : PhaseRecord)
    (hist : List (String × PhaseRecord))
    (hget : histGet hist (podKey c u) = some r) (hph : r.phase = p) :
    ∀ events : List (String × Pod),
      (∀ e ∈ events, (e.2).metadata.uid = u ∧ currentPhase e.2 = p) →
      run_pod_events environment sink now c hist events =
        { history := hist, notifications := [], writes := [] } := by
  intro events
  induction events with
  | nil => intro _; simp [run_pod_events]
  | cons e rest ih =>
    intro hall
    obtain ⟨et, pod⟩ := e
    obtain ⟨hu, hp⟩ := hall _ (List.mem_cons_self _ _)
    have hget' : histGet hist (podKey c pod.metadata.uid) = some r := by
      rw [hu]; exact hget
    have h1 : handle_pod_phase_event environment sink hist et pod c now =
        { history := hist, notifications := [], writes := [] } :=
      handle_suppress environment sink hist et pod c now r hget' (by rw [hph, hp])
    have h2 := ih (fun e he => hall e (List.mem_cons_of_mem _ he))
    simp [run_pod_events, h1, h2]

/-- Splitting a character list at a separator character absent from both prefixes
is unambiguous. -/
theorem append_sep_inj (c : Char) :
    ∀ a₁ a₂ b₁ b₂ : List Char, c ∉ a₁ → c ∉ a₂ →
      a₁ ++ c :: b₁ = a₂ ++ c :: b₂ → a₁ = a₂ ∧ b₁ = b₂ := by
  intro a₁
  induction a₁ with
  | nil =>
    intro a₂ b₁ b₂ _ h₂ heq
    cases a₂ with
    | nil => simpa using heq
    | cons y s =>
      simp at heq
      exact absurd (heq.1 ▸ List.mem_cons_self y s) h₂
  | cons x t ih =>
    intro a₂ b₁ b₂ h₁ h₂ heq
    cases a₂ with
    | nil =>
      simp at heq
      exact absurd (heq.1 ▸ List.mem_cons_self x t) h₁
    | cons y s =>
      simp at heq
      obtain ⟨hxy, hrest⟩ := heq
      have h₁' : c ∉ t := fun h => h₁ (List.mem_cons_of_mem _ h)
      have h₂' : c ∉ s := fun h => h₂ (List.mem_cons_of_mem _ h)
      obtain ⟨hts, hb⟩ := ih s b₁ b₂ h₁' h₂' hrest
      exact ⟨by rw [hxy, hts], hb⟩

/-- A small concrete pod snapshot used by witnesses and counterexamples. -/
def samplePod (nsp u : String) (ph : Option String) : Pod :=
  { metadata := { name := "pod-" ++ u, nspace := nsp, uid := u, creation_timestamp := none }
    spec := none
    status := some { phase := ph, conditions := none, container_statuses := none } }

/-- A concrete pod snapshot whose `status` object is absent (Python `None`). -/
def statuslessPod (u : String) : Pod :=
  { metadata := { name := "pod-" ++ u, nspace := "default", uid := u, creation_timestamp := none }
    spec := none
    status := none }

/-! ## Claims -/

/-- C3: for every pod event whose `PhaseKey` (cluster_name, uid) has no record in
the phase history, `handle_pod_phase_event` sends no notification and performs
exactly one history write, recording the event's current phase under that key. -/
theorem c3_first_observation_silence (environment : String) (sink : PodPhasePayload → Bool)
    (hist : List (String × PhaseRecord)) (et : String) (pod : Pod) (c now : String)
    (hget : histGet hist (podKey c pod.metadata.uid) = none) :
    (handle_pod_phase_event environment sink hist et pod c now).notifications = [] ∧
    (handle_pod_phase_event environment sink hist et pod c now).writes =
      [(podKey c pod.metadata.uid, { phase := currentPhase pod, timestamp := now })] ∧
    (handle_pod_phase_event environment sink hist et pod c now).history =
      histSet hist (podKey c pod.metadata.uid) { phase := currentPhase pod, timestamp := now } := by
  rw [handle_first_observation environment sink hist et pod c now hget]
  exact ⟨rfl, rfl, rfl⟩

/-- C3 witness: the theorem applied to a previously-unseen pod UID. -/
theorem c3_first_observation_silence_wit :
    histGet ([] : List (String × PhaseRecord)) (podKey "c1" (samplePod "default" "u3" (some "Pending")).metadata.uid) = none ∧
    ((handle_pod_phase_event "development" (fun _ => true) [] "ADDED"
        (samplePod "default" "u3" (some "Pending")) "c1" "t0").notifications = [] ∧
      (handle_pod_phase_event "development" (fun _ => true) [] "ADDED"
        (samplePod "default" "u3" (some "Pending")) "c1" "t0").writes =
        [(podKey "c1" (samplePod "default" "u3" (some "Pending")).metadata.uid,
          { phase := currentPhase (samplePod "default" "u3" (some "Pending")), timestamp := "t0" })] ∧
      (handle_pod_phase_event "development" (fun _ => true) [] "ADDED"
        (samplePod "default" "u3" (some "Pending")) "c1" "t0").history =
        histSet [] (podKey "c1" (samplePod "default" "u3" (some "Pending")).metadata.uid)
          { phase := currentPhase (samplePod "default" "u3" (some "Pending")), timestamp := "t0" }) :=
  ⟨by decide,
    c3_first_observation_silence "development" (fun _ => true) [] "ADDED"
      (samplePod "default" "u3" (some "Pending")) "c1" "t0" (by decide)⟩

/-- C8: a PVC event of type `DELETED` always invokes the Notification Sink's
`pvc_event` call with the translated payload, and returns the sink's boolean;
no phase history is consulted, so the behaviour is unconditional on history. -/
theorem c8_pvc_deleted_always_notifies (environment : String) (sink_pvc : PvcPayload → Bool)
    (et : String) (pvc : Pvc) (c now : String) (hdel : et = "DELETED") :
    (handle_pvc_event environment sink_pvc et pvc c now).sink_calls =
      [extract_pvc_data environment et pvc c now] ∧
    (handle_pvc_event environment sink_pvc et pvc c now).returned =
      some (sink_pvc (extract_pvc_data environment et pvc c now)) := by
  subst hdel
  simp [handle_pvc_event]

/-- C8 witness: the theorem applied to a concrete deleted PVC. -/
theorem c8_pvc_deleted_always_notifies_wit :
    ("DELETED" : String) = "DELETED" ∧
    ((handle_pvc_event "development" (fun _ => true) "DELETED"
        { metadata := { name := "vol", nspace := "default", uid := "pv1", creation_timestamp := none }
          status := none } "c1" "t0").sink_calls =
      [extract_pvc_data "development" "DELETED"
        { metadata := { name := "vol", nspace := "default", uid := "pv1", creation_timestamp := none }
          status := none } "c1" "t0"] ∧
    (handle_pvc_event "development" (fun _ => true) "DELETED"
        { metadata := { name := "vol", nspace := "default", uid := "pv1", creation_timestamp := none }
          status := none } "c1" "t0").returned =
      some ((fun _ => true)
        (extract_pvc_data "development" "DELETED"
          { metadata := { name := "vol", nspace := "default", uid := "pv1", creation_timestamp := none }
            status := none } "c1" "t0"))) :=
  ⟨rfl,
    c8_pvc_deleted_always_notifies "development" (fun _ => true) "DELETED"
      { metadata := { name := "vol", nspace := "default", uid := "pv1", creation_timestamp := none }
        status := none } "c1" "t0" rfl⟩

/-- C9: a pod snapshot with absent `status` translates (totally, no exception) to
a payload with `current_phase = "Unknown"` and an empty container list, and an
absent `creation_timestamp` yields a `None` timestamp field rather than an error;
the dedup phase seen by the handler is likewise `"Unknown"`. -/
theorem c9_null_safety (environment : String) (hist : List (String × PhaseRecord))
    (pod : Pod) (c now : String) (hstat : pod.status = none) :
    (extract_pod_phase_data environment hist pod c now).phase.current_phase = some "Unknown" ∧
    (extract_pod_phase_data environment hist pod c now).containers = [] ∧
    (pod.metadata.creation_timestamp = none →
      (extract_pod_phase_data environment hist pod c now).instance_info.creation_timestamp = none) ∧
    currentPhase pod = some "Unknown" := by
  refine ⟨?_, ?_, ?_, ?_⟩ <;> simp [extract_pod_phase_data, currentPhase, hstat]

/-- C9 witness: the theorem applied to a concrete status-less pod. -/
theorem c9_null_safety_wit :
    (statuslessPod "u9").status = none ∧
    ((extract_pod_phase_data "development" [] (statuslessPod "u9") "c1" "t0").phase.current_phase
        = some "Unknown" ∧
      (extract_pod_phase_data "development" [] (statuslessPod "u9") "c1" "t0").containers = [] ∧
      ((statuslessPod "u9").metadata.creation_timestamp = none →
        (extract_pod_phase_data "development" [] (statuslessPod "u9") "c1" "t0").instance_info.creation_timestamp = none) ∧
      currentPhase (statuslessPod "u9") = some "Unknown") :=
  ⟨by decide, c9_null_safety "development" [] (statuslessPod "u9") "c1" "t0" (by decide)⟩

/-- C10: a history record whose stored phase is the literal string `"None"` is
conflated with the missing-record sentinel: an event with a different phase is
treated as an initial observation — the record is overwritten with the new phase
and no notification is sent. -/
theorem c10_none_sentinel_conflation (environment : String) (sink : PodPhasePayload → Bool)
    (hist : List (String × PhaseRecord)) (et : String) (pod : Pod) (c now : String)
    (r : PhaseRecord) (hget : histGet hist (podKey c pod.metadata.uid) = some r)
    (hN : r.phase = some "None") (hne : currentPhase pod ≠ some "None") :
    (handle_pod_phase_event environment sink hist et pod c now).notifications = [] ∧
    (handle_pod_phase_event environment sink hist et pod c now).history =
      histSet hist (podKey c pod.metadata.uid) { phase := currentPhase pod, timestamp := now } := by
  rw [handle_none_record environment sink hist et pod c now r hget hN hne]
  exact ⟨rfl, rfl⟩

/-- C10 witness: the theorem applied to a concrete record storing `"None"`. -/
theorem c10_none_sentinel_conflation_wit :
    histGet [(podKey "c1" "u10", ({ phase := some "None", timestamp := "t0" } : PhaseRecord))]
        (podKey "c1" (samplePod "default" "u10" (some "Running")).metadata.uid) =
      some { phase := some "None", timestamp := "t0" } ∧
    (some "None" : Option String) = some "None" ∧
    currentPhase (samplePod "default" "u10" (some "Running")) ≠ some "None" ∧
    ((handle_pod_phase_event "development" (fun _ => true)
        [(podKey "c1" "u10", { phase := some "None", timestamp := "t0" })] "MODIFIED"
        (samplePod "default" "u10" (some "Running")) "c1" "t1").notifications = [] ∧
      (handle_pod_phase_event "development" (fun _ => true)
        [(podKey "c1" "u10", { phase := some "None", timestamp := "t0" })] "MODIFIED"
        (samplePod "default" "u10" (some "Running")) "c1" "t1").history =
        histSet [(podKey "c1" "u10", { phase := some "None", timestamp := "t0" })]
          (podKey "c1" (samplePod "default" "u10" (some "Running")).metadata.uid)
          { phase := currentPhase (samplePod "default" "u10" (some "Running")), timestamp := "t1" }) :=
  ⟨by decide, by decide, by decide,
    c10_none_sentinel_conflation "development" (fun _ => true)
      [(podKey "c1" "u10", { phase := some "None", timestamp := "t0" })] "MODIFIED"
      (samplePod "default" "u10" (some "Running")) "c1" "t1"
      { phase := some "None", timestamp := "t0" } (by decide) (by decide) (by decide)⟩

/-- C1 counterexample: with a prior record whose stored phase is the literal
string `"None"` and an event carrying `"Running"`, the event is a phase
transition in the claim's sense and the sink fails on every payload, yet
`handle_pod_phase_event` overwrites the record: the history is not unchanged. -/
theorem c1_failure_non_commit_cex :
    histGet [(podKey "c1" "u1", ({ phase := some "None", timestamp := "t0" } : PhaseRecord))]
        (podKey "c1" (samplePod "default" "u1" (some "Running")).metadata.uid) =
      some { phase := some "None", timestamp := "t0" } ∧
    (some "None" : Option String) ≠ currentPhase (samplePod "default" "u1" (some "Running")) ∧
    ¬ ((handle_pod_phase_event "development" (fun _ => false)
        [(podKey "c1" "u1", { phase := some "None", timestamp := "t0" })] "MODIFIED"
        (samplePod "default" "u1" (some "Running")) "c1" "t1").history =
      [(podKey "c1" "u1", { phase := some "None", timestamp := "t0" })]) := by
  decide

/-- C1 (amended): for every phase transition whose recorded phase is not the
literal string `"None"`, if the sink's `pod_event` call returns failure, the
phase history is exactly the same afterwards and no history write is performed. -/
theorem c1_failure_non_commit (environment : String) (sink : PodPhasePayload → Bool)
    (hist : List (String × PhaseRecord)) (et : String) (pod : Pod) (c now : String)
    (r : PhaseRecord) (hget : histGet hist (podKey c pod.metadata.uid) = some r)
    (hne : r.phase ≠ currentPhase pod) (hN : r.phase ≠ some "None")
    (hs : sink (extract_pod_phase_data environment hist pod c now) = false) :
    (handle_pod_phase_event environment sink hist et pod c now).history = hist ∧
    (handle_pod_phase_event environment sink hist et pod c now).writes = [] := by
  rw [handle_transition_failure environment sink hist et pod c now r hget hne hN hs]
  exact ⟨rfl, rfl⟩

/-- C1 witness: the amended theorem applied to a `Pending → Running` transition
with an always-failing sink. -/
theorem c1_failure_non_commit_wit :
    histGet [(podKey "c1" "u1b", ({ phase := some "Pending", timestamp := "t0" } : PhaseRecord))]
        (podKey "c1" (samplePod "default" "u1b" (some "Running")).metadata.uid) =
      some { phase := some "Pending", timestamp := "t0" } ∧
    (some "Pending" : Option String) ≠ currentPhase (samplePod "default" "u1b" (some "Running")) ∧
    (some "Pending" : Option String) ≠ some "None" ∧
    ((handle_pod_phase_event "development" (fun _ => false)
        [(podKey "c1" "u1b", { phase := some "Pending", timestamp := "t0" })] "MODIFIED"
        (samplePod "default" "u1b" (some "Running")) "c1" "t1").history =
      [(podKey "c1" "u1b", { phase := some "Pending", timestamp := "t0" })] ∧
    (handle_pod_phase_event "development" (fun _ => false)
        [(podKey "c1" "u1b", { phase := some "Pending", timestamp := "t0" })] "MODIFIED"
        (samplePod "default" "u1b" (some "Running")) "c1" "t1").writes = []) :=
  ⟨by decide, by decide, by decide,
    c1_failure_non_commit "development" (fun _ => false)
      [(podKey "c1" "u1b", { phase := some "Pending", timestamp := "t0" })] "MODIFIED"
      (samplePod "default" "u1b" (some "Running")) "c1" "t1"
      { phase := some "Pending", timestamp := "t0" } (by decide) (by decide) (by decide) (by decide)⟩

/-- C4 counterexample: with a prior record whose stored phase is the literal
string `"None"` and an event carrying `"Running"` (a differing phase), no
notification is attempted at all, so "exactly one notification" fails. -/
theorem c4_transition_detection_cex :
    histGet [(podKey "c1" "u4", ({ phase := some "None", timestamp := "t0" } : PhaseRecord))]
        (podKey "c1" (samplePod "default" "u4" (some "Running")).metadata.uid) =
      some { phase := some "None", timestamp := "t0" } ∧
    (some "None" : Option String) ≠ currentPhase (samplePod "default" "u4" (some "Running")) ∧
    ¬ ((handle_pod_phase_event "development" (fun _ => true)
        [(podKey "c1" "u4", { phase := some "None", timestamp := "t0" })] "MODIFIED"
        (samplePod "default" "u4" (some "Running")) "c1" "t1").notifications.length = 1) := by
  decide

/-- C4 (amended): for every pod event whose key has an existing record with a
different phase, that phase not being the literal string `"None"`, exactly one
notification is attempted, and its payload's `previous_phase` equals the phase
read from the history before any update for this event, with `current_phase` the
event's phase. -/
theorem c4_transition_detection (environment : String) (sink : PodPhasePayload → Bool)
    (hist : List (String × PhaseRecord)) (et : String) (pod : Pod) (c now : String)
    (r : PhaseRecord) (hget : histGet hist (podKey c pod.metadata.uid) = some r)
    (hne : r.phase ≠ currentPhase pod) (hN : r.phase ≠ some "None") :
    (handle_pod_phase_event environment sink hist et pod c now).notifications =
      [extract_pod_phase_data environment hist pod c now] ∧
    (extract_pod_phase_data environment hist pod c now).phase.previous_phase = r.phase ∧
    (extract_pod_phase_data environment hist pod c now).phase.current_phase = currentPhase pod := by
  refine ⟨?_, ?_, rfl⟩
  · cases hs : sink (extract_pod_phase_data environment hist pod c now) with
    | true =>
      rw [handle_transition_success environment sink hist et pod c now r hget hne hN hs]
    | false =>
      rw [handle_transition_failure environment sink hist et pod c now r hget hne hN hs]
  · simp [extract_pod_phase_data, hget]

/-- C4 witness: the amended theorem applied to a `Pending → Running` transition. -/
theorem c4_transition_detection_wit :
    histGet [(podKey "c1" "u4b", ({ phase := some "Pending", timestamp := "t0" } : PhaseRecord))]
        (podKey "c1" (samplePod "default" "u4b" (some "Running")).metadata.uid) =
      some { phase := some "Pending", timestamp := "t0" } ∧
    (some "Pending" : Option String) ≠ currentPhase (samplePod "default" "u4b" (some "Running")) ∧
    (some "Pending" : Option String) ≠ some "None" ∧
    ((handle_pod_phase_event "development" (fun _ => true)
        [(podKey "c1" "u4b", { phase := some "Pending", timestamp := "t0" })] "MODIFIED"
        (samplePod "default" "u4b" (some "Running")) "c1" "t1").notifications =
      [extract_pod_phase_data "development"
        [(podKey "c1" "u4b", { phase := some "Pending", timestamp := "t0" })]
        (samplePod "default" "u4b" (some "Running")) "c1" "t1"] ∧
    (extract_pod_phase_data "development"
        [(podKey "c1" "u4b", { phase := some "Pending", timestamp := "t0" })]
        (samplePod "default" "u4b" (some "Running")) "c1" "t1").phase.previous_phase =
      some "Pending" ∧
    (extract_pod_phase_data "development"
        [(podKey "c1" "u4b", { phase := some "Pending", timestamp := "t0" })]
        (samplePod "default" "u4b" (some "Running")) "c1" "t1").phase.current_phase =
      currentPhase (samplePod "default" "u4b" (some "Running"))) :=
  ⟨by decide, by decide, by decide,
    c4_transition_detection "development" (fun _ => true)
      [(podKey "c1" "u4b", { phase := some "Pending", timestamp := "t0" })] "MODIFIED"
      (samplePod "default" "u4b" (some "Running")) "c1" "t1"
      { phase := some "Pending", timestamp := "t0" } (by decide) (by decide) (by decide)⟩

/-- C5 counterexample: the colon-joined key is not injective on arbitrary
cluster names and UIDs — two distinct `(cluster_name, uid)` pairs share one
dedup slot. -/
theorem c5_pod_key_injective_cex :
    podKey "a:b" "c" = podKey "a" "b:c" ∧ ¬ (("a:b" : String) = "a" ∧ ("c" : String) = "b:c") := by
  decide

/-- C5 (amended): provided the cluster names contain no colon character, the
mapping `(cluster_name, uid) ↦ pod_key` is injective: two events target the same
dedup slot exactly when both their cluster name and their uid coincide. -/
theorem c5_pod_key_injective (c₁ u₁ c₂ u₂ : String)
    (h₁ : ':' ∉ c₁.data) (h₂ : ':' ∉ c₂.data) :
    podKey c₁ u₁ = podKey c₂ u₂ ↔ (c₁ = c₂ ∧ u₁ = u₂) := by
  constructor
  · intro h
    have hcolon : (":" : String).data = [':'] := rfl
    have hd : c₁.data ++ ':' :: u₁.data = c₂.data ++ ':' :: u₂.data := by
      have hdata := congrArg String.data h
      simpa [podKey, String.data_append, hcolon] using hdata
    obtain ⟨hc, hu⟩ := append_sep_inj ':' c₁.data c₂.data u₁.data u₂.data h₁ h₂ hd
    exact ⟨String.ext hc, String.ext hu⟩
  · rintro ⟨rfl, rfl⟩
    rfl

/-- C5 witness: the amended theorem applied to two colon-free cluster names. -/
theorem c5_pod_key_injective_wit :
    (':' ∉ ("clusterA" : String).data) ∧ (':' ∉ ("clusterB" : String).data) ∧
    (podKey "clusterA" "uid-1" = podKey "clusterB" "uid-1" ↔
      (("clusterA" : String) = "clusterB" ∧ ("uid-1" : String) = "uid-1")) :=
  ⟨by decide, by decide,
    c5_pod_key_injective "clusterA" "uid-1" "clusterB" "uid-1" (by decide) (by decide)⟩

/-- C6 counterexample: on a concrete session whose watch stream fails mid-watch,
the session neither enters a reconnecting state, nor re-opens the stream, nor
backs off — the claimed recovery behaviour is absent. -/
theorem c6_stream_failure_reconnect_cex :
    ¬ ((watch_cluster "development" (fun _ => true) "t0" "c1" []
          [("ADDED", samplePod "default" "u6" (some "Pending"))] StreamEnd.failed).final =
        SessionFinal.reconnecting ∨
      (watch_cluster "development" (fun _ => true) "t0" "c1" []
          [("ADDED", samplePod "default" "u6" (some "Pending"))] StreamEnd.failed).pod_stream_opens ≥ 2 ∨
      (watch_cluster "development" (fun _ => true) "t0" "c1" []
          [("ADDED", samplePod "default" "u6" (some "Pending"))] StreamEnd.failed).backoff_sleeps ≥ 1) := by
  decide

/-- C6 (amended): when a watch stream fails mid-watch, `_watch_cluster` logs the
error, stops the watch and terminates the session: the stream was opened exactly
once, no backoff sleep is performed, the stream is never re-opened, and the only
retained effect is the processing of the events delivered before the failure. A
dropped stream therefore silently ends monitoring of that cluster. -/
theorem c6_stream_failure_reconnect (environment : String) (sink : PodPhasePayload → Bool)
    (now c : String) (hist : List (String × PhaseRecord)) (events : List (String × Pod))
    (ending : StreamEnd) (hfail : ending = StreamEnd.failed) :
    (watch_cluster environment sink now c hist events ending).final = SessionFinal.terminated ∧
    (watch_cluster environment sink now c hist events ending).pod_stream_opens = 1 ∧
    (watch_cluster environment sink now c hist events ending).backoff_sleeps = 0 ∧
    (watch_cluster environment sink now c hist events ending).history =
      (run_pod_events environment sink now c hist events).history ∧
    (watch_cluster environment sink now c hist events ending).pod_notifications =
      (run_pod_events environment sink now c hist events).notifications := by
  subst hfail
  exact ⟨rfl, rfl, rfl, rfl, rfl⟩

/-- C6 witness: the amended theorem applied to a concrete failed stream. -/
theorem c6_stream_failure_reconnect_wit :
    StreamEnd.failed = StreamEnd.failed ∧
    ((watch_cluster "development" (fun _ => true) "t0" "c1" []
        [("ADDED", samplePod "default" "u6b" (some "Pending"))] StreamEnd.failed).final =
      SessionFinal.terminated ∧
    (watch_cluster "development" (fun _ => true) "t0" "c1" []
        [("ADDED", samplePod "default" "u6b" (some "Pending"))] StreamEnd.failed).pod_stream_opens = 1 ∧
    (watch_cluster "development" (fun _ => true) "t0" "c1" []
        [("ADDED", samplePod "default" "u6b" (some "Pending"))] StreamEnd.failed).backoff_sleeps = 0 ∧
    (watch_cluster "development" (fun _ => true) "t0" "c1" []
        [("ADDED", samplePod "default" "u6b" (some "Pending"))] StreamEnd.failed).history =
      (run_pod_events "development" (fun _ => true) "t0" "c1" []
        [("ADDED", samplePod "default" "u6b" (some "Pending"))]).history ∧
    (watch_cluster "development" (fun _ => true) "t0" "c1" []
        [("ADDED", samplePod "default" "u6b" (some "Pending"))] StreamEnd.failed).pod_notifications =
      (run_pod_events "development" (fun _ => true) "t0" "c1" []
        [("ADDED", samplePod "default" "u6b" (some "Pending"))]).notifications) :=
  ⟨rfl,
    c6_stream_failure_reconnect "development" (fun _ => true) "t0" "c1" []
      [("ADDED", samplePod "default" "u6b" (some "Pending"))] StreamEnd.failed rfl⟩

/-- C7 counterexample: with a namespace allow-list `["production"]` configured
and an event from namespace `"dev"` (outside the list), the handler still
performs a history write — the event is not dropped before dedup. -/
theorem c7_namespace_filter_cex :
    ("dev" : String) ∉ (["production"] : List String) ∧
    ¬ ((handle_pod_phase_event "development" (fun _ => true) [] "ADDED"
        (samplePod "dev" "u7" (some "Pending")) "c1" "t0").writes = []) := by
  decide

/-- C7 (amended): a configured namespace allow-list is not enforced by the
handler: an event whose namespace is outside the allow-list still goes through
dedup — a first observation performs its history write (so a later unfiltering
does not see a fresh first observation), and a phase transition still attempts a
notification. -/
theorem c7_namespace_filter (environment : String) (sink : PodPhasePayload → Bool)
    (hist : List (String × PhaseRecord)) (et : String) (pod : Pod) (c now : String)
    (target_namespaces : List String)
    (hout : pod.metadata.nspace ∉ target_namespaces) :
    (histGet hist (podKey c pod.metadata.uid) = none →
      (handle_pod_phase_event environment sink hist et pod c now).writes =
        [(podKey c pod.metadata.uid, { phase := currentPhase pod, timestamp := now })]) ∧
    (∀ r, histGet hist (podKey c pod.metadata.uid) = some r →
      r.phase ≠ currentPhase pod → r.phase ≠ some "None" →
      (handle_pod_phase_event environment sink hist et pod c now).notifications =
        [extract_pod_phase_data environment hist pod c now]) := by
  constructor
  · intro hget
    rw [handle_first_observation environment sink hist et pod c now hget]
  · intro r hget hne hN
    cases hs : sink (extract_pod_phase_data environment hist pod c now) with
    | true =>
      rw [handle_transition_success environment sink hist et pod c now r hget hne hN hs]
    | false =>
      rw [handle_transition_failure environment sink hist et pod c now r hget hne hN hs]

/-- C7 witness: the amended theorem applied to an event outside the allow-list. -/
theorem c7_namespace_filter_wit :
    (samplePod "dev" "u7b" (some "Pending")).metadata.nspace ∉ (["production"] : List String) ∧
    ((histGet ([] : List (String × PhaseRecord))
        (podKey "c1" (samplePod "dev" "u7b" (some "Pending")).metadata.uid) = none →
      (handle_pod_phase_event "development" (fun _ => true) [] "ADDED"
        (samplePod "dev" "u7b" (some "Pending")) "c1" "t0").writes =
        [(podKey "c1" (samplePod "dev" "u7b" (some "Pending")).metadata.uid,
          { phase := currentPhase (samplePod "dev" "u7b" (some "Pending")), timestamp := "t0" })]) ∧
    (∀ r, histGet ([] : List (String × PhaseRecord))
        (podKey "c1" (samplePod "dev" "u7b" (some "Pending")).metadata.uid) = some r →
      r.phase ≠ currentPhase (samplePod "dev" "u7b" (some "Pending")) → r.phase ≠ some "None" →
      (handle_pod_phase_event "development" (fun _ => true) [] "ADDED"
        (samplePod "dev" "u7b" (some "Pending")) "c1" "t0").notifications =
        [extract_pod_phase_data "development" [] (samplePod "dev" "u7b" (some "Pending")) "c1" "t0"])) :=
  ⟨by decide,
    c7_namespace_filter "development" (fun _ => true) [] "ADDED"
      (samplePod "dev" "u7b" (some "Pending")) "c1" "t0" ["production"] (by decide)⟩

/-- C2 counterexample: a prior record with the differing stored phase `"None"`
(literal string) exists, the sink succeeds on every delivery, and a single
`"Running"` event is processed — but zero notifications are produced instead of
the claimed "exactly one". -/
theorem c2_dedup_idempotence_cex :
    histGet [(podKey "c1" "u2", ({ phase := some "None", timestamp := "t0" } : PhaseRecord))]
        (podKey "c1" "u2") = some { phase := some "None", timestamp := "t0" } ∧
    (some "None" : Option String) ≠ currentPhase (samplePod "default" "u2" (some "Running")) ∧
    ¬ ((run_pod_events "development" (fun _ => true) "t1" "c1"
        [(podKey "c1" "u2", { phase := some "None", timestamp := "t0" })]
        [("MODIFIED", samplePod "default" "u2" (some "Running"))]).notifications.length = 1) := by
  decide

/-- C2 (amended): with a sink that succeeds on every delivery, processing any
number of consecutive events for one UID that all carry the same phase produces
at most one notification: none if the UID had no record, none if the recorded
phase was the literal string `"None"`, and exactly one if a record with a
different phase other than `"None"` existed and at least one event arrives. -/
theorem c2_dedup_idempotence (environment now c u : String) (p : Option String)
    (sink : PodPhasePayload → Bool) (hsink : ∀ q, sink q = true)
    (hist : List (String × PhaseRecord)) (events : List (String × Pod))
    (hall : ∀ e ∈ events, (e.2).metadata.uid = u ∧ currentPhase e.2 = p) :
    (run_pod_events environment sink now c hist events).notifications.length ≤ 1 ∧
    (histGet hist (podKey c u) = none →
      (run_pod_events environment sink now c hist events).notifications.length = 0) ∧
    (∀ r, histGet hist (podKey c u) = some r → r.phase = some "None" →
      (run_pod_events environment sink now c hist events).notifications.length = 0) ∧
    (∀ r, histGet hist (podKey c u) = some r → r.phase ≠ p → r.phase ≠ some "None" →
      events ≠ [] →
      (run_pod_events environment sink now c hist events).notifications.length = 1) := by
  cases events with
  | nil =>
    refine ⟨by simp [run_pod_events], fun _ => by simp [run_pod_events],
      fun _ _ _ => by simp [run_pod_events], fun r _ _ _ hne => absurd rfl hne⟩
  | cons e rest =>
    obtain ⟨et, pod⟩ := e
    have hu : pod.metadata.uid = u := (hall (et, pod) (List.mem_cons_self _ _)).1
    have hp : currentPhase pod = p := (hall (et, pod) (List.mem_cons_self _ _)).2
    subst hu
    subst hp
    have hrest : ∀ e ∈ rest,
        (e.2).metadata.uid = pod.metadata.uid ∧ currentPhase e.2 = currentPhase pod :=
      fun e he => hall e (List.mem_cons_of_mem _ he)
    rcases hh : histGet hist (podKey c pod.metadata.uid) with _ | r
    · -- no prior record: silent seed, then full suppression
      have h1 := handle_first_observation environment sink hist et pod c now hh
      have h2 := run_suppressed environment sink now c pod.metadata.uid (currentPhase pod)
        { phase := currentPhase pod, timestamp := now }
        (histSet hist (podKey c pod.metadata.uid) { phase := currentPhase pod, timestamp := now })
        (histGet_histSet_self hist (podKey c pod.metadata.uid)
          { phase := currentPhase pod, timestamp := now }) rfl rest hrest
      refine ⟨?_, fun _ => ?_, fun r' hr' _ => ?_, fun r' hr' _ _ _ => ?_⟩
      · simp [run_pod_events, h1, h2]
      · simp [run_pod_events, h1, h2]
      · cases hr'
      · cases hr'
    · by_cases hsame : r.phase = currentPhase pod
      · -- recorded phase already equals the common phase: everything suppressed
        have h2 := run_suppressed environment sink now c pod.metadata.uid (currentPhase pod)
          r hist hh hsame ((et, pod) :: rest) hall
        refine ⟨?_, fun hnone => ?_, fun r' hr' _ => ?_, fun r' hr' hne _ _ => ?_⟩
        · simp [h2]
        · cases hnone
        · simp [h2]
        · injection hr' with heq
          subst heq
          exact absurd hsame hne
      · by_cases hNone : r.phase = some "None"
        · -- stored sentinel string "None": routed to the silent initial branch
          have hcne : currentPhase pod ≠ some "None" := fun h => hsame (by rw [hNone, h])
          have h1 := handle_none_record environment sink hist et pod c now r hh hNone hcne
          have h2 := run_suppressed environment sink now c pod.metadata.uid (currentPhase pod)
            { phase := currentPhase pod, timestamp := now }
            (histSet hist (podKey c pod.metadata.uid) { phase := currentPhase pod, timestamp := now })
            (histGet_histSet_self hist (podKey c pod.metadata.uid)
              { phase := currentPhase pod, timestamp := now }) rfl rest hrest
          refine ⟨?_, fun hnone => ?_, fun r' hr' _ => ?_, fun r' hr' _ hN' _ => ?_⟩
          · simp [run_pod_events, h1, h2]
          · cases hnone
          · simp [run_pod_events, h1, h2]
          · injection hr' with heq
            subst heq
            exact absurd hNone hN'
        · -- genuine transition: exactly one successful notification, then suppression
          have h1 := handle_transition_success environment sink hist et pod c now r hh hsame hNone
            (hsink _)
          have h2 := run_suppressed environment sink now c pod.metadata.uid (currentPhase pod)
            { phase := currentPhase pod, timestamp := now }
            (histSet hist (podKey c pod.metadata.uid) { phase := currentPhase pod, timestamp := now })
            (histGet_histSet_self hist (podKey c pod.metadata.uid)
              { phase := currentPhase pod, timestamp := now }) rfl rest hrest
          refine ⟨?_, fun hnone => ?_, fun r' hr' hN' => ?_, fun r' hr' _ _ _ => ?_⟩
          · simp [run_pod_events, h1, h2]
          · cases hnone
          · injection hr' with heq
            subst heq
            exact absurd hN' hNone
          · simp [run_pod_events, h1, h2]

/-- C2 witness: the amended theorem applied to two consecutive `"Running"`
events for a UID last recorded as `"Pending"`, with an always-succeeding sink. -/
theorem c2_dedup_idempotence_wit :
    (∀ q : PodPhasePayload, (fun _ => true : PodPhasePayload → Bool) q = true) ∧
    (∀ e ∈ [("MODIFIED", samplePod "default" "u2w" (some "Running")),
            ("MODIFIED", samplePod "default" "u2w" (some "Running"))],
      (e.2 : Pod).metadata.uid = "u2w" ∧ currentPhase e.2 = some "Running") ∧
    ((run_pod_events "development" (fun _ => true) "t1" "c1"
        [(podKey "c1" "u2w", { phase := some "Pending", timestamp := "t0" })]
        [("MODIFIED", samplePod "default" "u2w" (some "Running")),
         ("MODIFIED", samplePod "default" "u2w" (some "Running"))]).notifications.length ≤ 1 ∧
    (histGet [(podKey "c1" "u2w", ({ phase := some "Pending", timestamp := "t0" } : PhaseRecord))]
        (podKey "c1" "u2w") = none →
      (run_pod_events "development" (fun _ => true) "t1" "c1"
        [(podKey "c1" "u2w", { phase := some "Pending", timestamp := "t0" })]
        [("MODIFIED", samplePod "default" "u2w" (some "Running")),
         ("MODIFIED", samplePod "default" "u2w" (some "Running"))]).notifications.length = 0) ∧
    (∀ r, histGet [(podKey "c1" "u2w", ({ phase := some "Pending", timestamp := "t0" } : PhaseRecord))]
        (podKey "c1" "u2w") = some r → r.phase = some "None" →
      (run_pod_events "development" (fun _ => true) "t1" "c1"
        [(podKey "c1" "u2w", { phase := some "Pending", timestamp := "t0" })]
        [("MODIFIED", samplePod "default" "u2w" (some "Running")),
         ("MODIFIED", samplePod "default" "u2w" (some "Running"))]).notifications.length = 0) ∧
    (∀ r, histGet [(podKey "c1" "u2w", ({ phase := some "Pending", timestamp := "t0" } : PhaseRecord))]
        (podKey "c1" "u2w") = some r → r.phase ≠ some "Running" → r.phase ≠ some "None" →
      ([("MODIFIED", samplePod "default" "u2w" (some "Running")),
        ("MODIFIED", samplePod "default" "u2w" (some "Running"))] :
          List (String × Pod)) ≠ [] →
      (run_pod_events "development" (fun _ => true) "t1" "c1"
        [(podKey "c1" "u2w", { phase := some "Pending", timestamp := "t0" })]
        [("MODIFIED", samplePod "default" "u2w" (some "Running")),
         ("MODIFIED", samplePod "default" "u2w" (some "Running"))]).notifications.length = 1)) :=
  ⟨fun _ => rfl, by decide,
    c2_dedup_idempotence "development" "t1" "c1" "u2w" (some "Running")
      (fun _ => true) (fun _ => rfl)
      [(podKey "c1" "u2w", { phase := some "Pending", timestamp := "t0" })]
      [("MODIFIED", samplePod "default" "u2w" (some "Running")),
       ("MODIFIED", samplePod "default" "u2w" (some "Running"))] (by decide)⟩
